import Mathlib

/-!
Verification development for the multi-strategy retrieval and
confidence-routing engine of the Help-Desk RAG server
(`backend/rag_api_server.py` and `backend/enhanced_ollama_chatbot_v2.py`).

The Python code is shallowly embedded below: pure methods become Lean
functions over explicit state records, floating point arithmetic is
modelled exactly with `ℚ`, and interactions with external components
(the NLTK lemmatizer and stop-word list, the sklearn TF-IDF vectorizer,
and the Ollama generative backend) are modelled as abstract data carried
in the state, since those live outside the repository.  NumPy score
arrays are modelled as fixed-length lists whose out-of-range writes
raise, mirrored by an `Except` result that the integrated search catches
exactly where the Python `try`/`except` does.
-/

/-! ## Python text primitives -/

/-- Split a character list on runs of whitespace, dropping empty pieces:
the semantics of Python's `str.split()` with no argument. -/
def pySplitAux : List Char → List Char → List String
  | [], acc => if acc.isEmpty then [] else [String.mk acc.reverse]
  | c :: rest, acc =>
    if c.isWhitespace then
      if acc.isEmpty then pySplitAux rest [] else String.mk acc.reverse :: pySplitAux rest []
    else pySplitAux rest (c :: acc)

/-- Python `text.split()`. -/
def pySplit (s : String) : List String := pySplitAux s.toList []

/-- Python `s.lower()`, character by character (the built-in
`(pyLower String)` is defined by well-founded recursion on positions and
does not reduce in the kernel; this map-based version does). -/
def pyLower (s : String) : String := String.mk (s.toList.map Char.toLower)

/-- Python `s.endswith(t)` (again avoiding the non-reducing built-in). -/
def pyEndsWith (s t : String) : Bool := t.toList.isSuffixOf s.toList

/-- Python `text.strip()`: remove leading and trailing whitespace. -/
def pyStrip (s : String) : String :=
  String.mk (((s.toList.dropWhile Char.isWhitespace).reverse.dropWhile Char.isWhitespace).reverse)

/-- Occurrence of `pat` as a contiguous sublist of the character list:
Python's `pat in hay` on strings, specialised to a starting suffix. -/
def listContainsSub (pat : List Char) : List Char → Bool
  | [] => pat.isEmpty
  | c :: t => pat.isPrefixOf (c :: t) || listContainsSub pat t

/-- Python's substring test `pat in hay`. -/
def strContains (hay pat : String) : Bool := listContainsSub pat.toList hay.toList

/-- Python `' '.join(s.lower().strip().split())`: the normalisation the
search applies to the raw query and to dataset questions and variations. -/
def pyNormalize (s : String) : String :=
  " ".intercalate (pySplit (pyStrip (pyLower s)))

/-- Python `set(s.split())`, as a duplicate-free token list. -/
def wordSet (s : String) : List String := (pySplit s).dedup

/-- Cardinality of the intersection of two Python word sets
(`len(a & b)`); `a` and `b` are duplicate-free lists. -/
def interCard (a b : List String) : Nat := (a.filter (fun w => b.contains w)).length

/-- Cardinality of the union of two Python word sets (`len(a | b)`). -/
def unionCard (a b : List String) : Nat := a.length + b.length - interCard a b

/-- First index of `w` in `l` — Python `list.index`, defined when `w ∈ l`
(callers guard with a membership test, so out-of-list returns `l.length`). -/
def firstIdx (l : List String) (w : String) : Nat :=
  match l with
  | [] => 0
  | x :: t => if x = w then 0 else firstIdx t w + 1


/-! ## Reducible rational arithmetic

`Rat.add`, `Rat.mul`, `Rat.div` and the decimal-literal constructor
`Rat.ofScientific` are `@[irreducible]`, which blocks the kernel
evaluation that `decide` performs on concrete inputs.  The embedding
therefore computes with the following `Rat.divInt`-based equivalents;
the bridge lemmas in the theorem section prove each one equal to the
corresponding standard operation, so the arithmetic is still exactly ℚ. -/

/-- Reducible rational addition (equal to `a + b`). -/
def qAdd (a b : ℚ) : ℚ := Rat.divInt (a.num * b.den + b.num * a.den) (a.den * b.den)

/-- Reducible rational multiplication (equal to `a * b`). -/
def qMul (a b : ℚ) : ℚ := Rat.divInt (a.num * b.num) (a.den * b.den)

/-- Reducible rational division (equal to `a / b`, with `a / 0 = 0`). -/
def qDiv (a b : ℚ) : ℚ := Rat.divInt (a.num * b.den) (a.den * b.num)

/-- Reducible rational subtraction (equal to `a - b`). -/
def qSub (a b : ℚ) : ℚ := qAdd a (-b)

/-- Reducible rational minimum (equal to `min a b`). -/
def qMin (a b : ℚ) : ℚ := if a ≤ b then a else b

/-- Reducible rational absolute value (equal to `|a|`). -/
def qAbs (a : ℚ) : ℚ := if a < 0 then -a else a

/-- The decimal constant `n / 100` (e.g. `dq 40` is the weight `0.4`),
written through `Rat.divInt` for kernel reducibility. -/
def dq (n : ℤ) : ℚ := Rat.divInt n 100

/-! ## Data model

One entry of `IntegratedSearchSystem.self.data` (the dicts built by
`load_data` / `load_dataset_files`).  Optional dict keys are modelled by
the `item.get(..., default)` defaults the Python code uses; an item
coming from the instruction dataset simply has empty `questionVariations`
and `department`, matching the `.get` fall-backs at every use site. -/
structure DataItem where
  question : String
  answer : String
  keywords : List String := []
  categories : List String := []
  source : String := ""
  confidenceScore : ℚ := 1
  questionVariations : List String := []
  department : String := ""
  priority : String := "normal"
  deriving DecidableEq, Repr

/-- One entry of `self.disliked_answers` (timestamp and the constant
`blocked_permanently: True` flag omitted: no code path reads them). -/
structure DislikedEntry where
  answer : String
  question : String
  deriving DecidableEq, Repr

/-- One entry of `self.feedback_data`. -/
structure FeedbackItem where
  question : String
  answer : String
  feedback : String
  deriving DecidableEq, Repr

/-- The mutable state of `IntegratedSearchSystem`, plus the configuration
global `OFFLINE_MODE` and the module-global `learning_stats` counters.
External collaborators are carried as abstract data: `stopWords` and
`lemmatize` stand for the NLTK stop-word set and WordNet lemmatizer,
`rawSims` for the cosine-similarity row the sklearn TF-IDF vectorizer
produces for a processed query (`vectorizer` records whether
`train_models` has published an index at all), and `llmGen` for the
generative backend reached through `generate_llama_response`. -/
structure IntegratedSearchSystem where
  data : List DataItem
  instructionResponses : List (String × String) := []
  dislikedAnswers : List DislikedEntry := []
  feedbackData : List FeedbackItem := []
  stopWords : List String := []
  lemmatize : String → String := id
  questions : List String := []
  answers : List String := []
  keywordsList : List (List String) := []
  rawSims : String → Nat → ℚ := fun _ _ => 0
  vectorizer : Bool := false
  offlineMode : Bool := true
  llmAvailable : Bool := false
  llmGen : String → String → String := fun _ _ => ""
  totalFeedback : Nat := 0
  likes : Nat := 0
  dislikes : Nat := 0
  blockedAnswers : Nat := 0

/-- Result dict of `search_json_data` / `search_instruction_responses`
(the metadata keys `analyzed_items` and `source_references`, which no
routing decision reads, are omitted). -/
structure SearchResult where
  answer : String
  confidence : ℚ
  method : String
  isExactMatch : Bool := false
  deriving DecidableEq, Repr

/-- Result dict of `integrated_search` as consumed by the `/chat` route. -/
structure ChatResponse where
  answer : String
  confidence : ℚ
  method : String
  deriving DecidableEq, Repr

/-! ## Normalizer -/

/-- `IntegratedSearchSystem.preprocess`: lower-case and strip, keep only
alphanumeric and whitespace characters, drop stop words, lemmatize the
survivors and re-join with single spaces. -/
def preprocess (sys : IntegratedSearchSystem) (text : String) : String :=
  if text = "" then ""
  else
    let t := pyStrip (pyLower text)
    let t := String.mk (t.toList.filter (fun c => c.isAlphanum || c.isWhitespace))
    let ws := ((pySplit t).filter (fun w => !sys.stopWords.contains w)).map sys.lemmatize
    " ".intercalate ws

/-- `IntegratedSearchSystem.preprocess_all_data`: rebuild the searchable
lists from `self.data`, skipping every item whose answer equals a
disliked answer.  (The parallel `self.categories` list feeds only the
category classifier, which no search path consults; it is not modelled.) -/
def preprocessAllData (sys : IntegratedSearchSystem) : IntegratedSearchSystem :=
  let kept := sys.data.filter
    (fun item => !sys.dislikedAnswers.any (fun d => d.answer = item.answer))
  { sys with
    questions := kept.map (fun item => preprocess sys item.question)
    answers := kept.map (fun item => item.answer)
    keywordsList := kept.map (fun item => item.keywords.map (preprocess sys)) }

/-- `IntegratedSearchSystem.train_models`: with no questions the method
returns before touching the vectorizer, leaving the index absent;
otherwise it publishes the TF-IDF index (whose numeric content is the
abstract `rawSims`).  The category classifier is not modelled (unused by
search). -/
def trainModels (sys : IntegratedSearchSystem) : IntegratedSearchSystem :=
  if sys.questions.isEmpty then sys else { sys with vectorizer := true }

/-! ## Entity detector and fee validator -/

/-- The `department_patterns` table of `_detect_department`, in source
order (the outer dict iteration order). -/
def departmentPatterns : List (String × List String) :=
  [("eee", ["eee", "electrical", "electronic", "electrical and electronic", "electrical engineering"]),
   ("cse", ["cse", "computer science", "computer engineering", "software", "programming"]),
   ("bba", ["bba", "business", "business administration", "management"]),
   ("textile", ["textile", "textile engineering", "garment"]),
   ("law", ["law", "llb", "legal", "advocate"]),
   ("english", ["english", "ba english", "literature", "linguistics"]),
   ("journalism", ["journalism", "media", "communication"]),
   ("sociology", ["sociology", "social science"])]

/-- `IntegratedSearchSystem._detect_department`: the first department in
table order one of whose patterns occurs in the lower-cased text, or `""`. -/
def detectDepartment (text : String) : String :=
  let tl := (pyLower text)
  match departmentPatterns.find? (fun dp => dp.2.any (fun p => strContains tl p)) with
  | some dp => dp.1
  | none => ""

/-- The `dept_keywords` table of `_mentions_different_department`. -/
def deptKeywords : List (String × List String) :=
  [("eee", ["eee", "electrical", "electronic"]),
   ("cse", ["cse", "computer science", "computer engineering"]),
   ("bba", ["bba", "business administration"]),
   ("textile", ["textile engineering"]),
   ("law", ["llb", "law"]),
   ("english", ["ba english", "english department"])]

/-- `IntegratedSearchSystem._mentions_different_department`: does the
record's question+answer text mention a department other than `target`? -/
def mentionsDifferentDepartment (question answer target : String) : Bool :=
  if target = "" then false
  else
    let text := (pyLower (question ++ " " ++ answer))
    deptKeywords.any (fun dk => dk.1 ≠ target && dk.2.any (fun k => strContains text k))

/-- The per-record body of STRATEGY 5 of `search_json_data`: +0.4 when the
detected department occurs in the record's department tag or question,
−0.5 when the record mentions a different department, else 0. -/
def departmentScore (detected : String) (item : DataItem) : ℚ :=
  if detected = "" then 0
  else if strContains (pyLower item.department) detected
       || strContains (pyLower item.question) detected then dq 40
  else if mentionsDifferentDepartment (pyLower item.question) (pyLower item.answer) detected then dq (-50)
  else 0

/-- `fee_keywords` of `_is_fee_question`. -/
def feeKeywords : List String :=
  ["fee", "tuition", "cost", "price", "payment", "semester fee", "how much", "total cost", "program cost"]

/-- `IntegratedSearchSystem._is_fee_question`. -/
def isFeeQuestion (question : String) : Bool :=
  feeKeywords.any (fun k => strContains (pyLower question) k)

/-- The `correct_fees` ground-truth table of `_validate_fee_answer`
(per-semester BDT amounts), in dict insertion order. -/
def correctFees : List (String × Nat) :=
  [("cse", 70000), ("computer science", 70000), ("computer engineering", 70000),
   ("eee", 80000), ("electrical", 80000), ("electronic", 80000),
   ("electrical and electronic", 80000),
   ("bba", 60000), ("business administration", 60000), ("business", 60000),
   ("textile", 65000), ("textile engineering", 65000),
   ("law", 55000), ("llb", 55000),
   ("english", 50000), ("ba english", 50000)]

/-- Greedy `\d{1,3}` at the head of the character list: up to three
leading digits and the remaining characters, `none` when no digit leads. -/
def takeDigits13 (l : List Char) : Option (Nat × List Char) :=
  match l with
  | d1 :: rest1 =>
    if d1.isDigit then
      match rest1 with
      | d2 :: rest2 =>
        if d2.isDigit then
          match rest2 with
          | d3 :: rest3 =>
            if d3.isDigit then
              some ((d1.toNat - 48) * 100 + (d2.toNat - 48) * 10 + (d3.toNat - 48), rest3)
            else some ((d1.toNat - 48) * 10 + (d2.toNat - 48), rest2)
          | [] => some ((d1.toNat - 48) * 10 + (d2.toNat - 48), [])
        else some (d1.toNat - 48, rest1)
      | [] => some (d1.toNat - 48, [])
    else none
  | [] => none

/-- Greedy `(?:,\d{3})*`: fold comma-plus-three-digit groups onto `acc`. -/
def takeCommaGroups (acc : Nat) : List Char → Nat
  | ',' :: d1 :: d2 :: d3 :: rest =>
    if d1.isDigit && d2.isDigit && d3.isDigit then
      takeCommaGroups
        (acc * 1000 + (d1.toNat - 48) * 100 + (d2.toNat - 48) * 10 + (d3.toNat - 48)) rest
    else acc
  | _ => acc

/-- `re.findall(r'bdt\s*(\d{1,3}(?:,\d{3})*)', answer_lower)` followed by
`int(fee_matches[0].replace(',', ''))`: the first money-like BDT amount in
the (already lower-cased) text, commas removed. -/
def firstBdtAmountAux : List Char → Option Nat
  | [] => none
  | c :: rest =>
    if ['b', 'd', 't'].isPrefixOf (c :: rest) then
      match takeDigits13 ((c :: rest).drop 3 |>.dropWhile Char.isWhitespace) with
      | some (n, after) => some (takeCommaGroups n after)
      | none => firstBdtAmountAux rest
    else firstBdtAmountAux rest

/-- First BDT amount of a lower-cased answer string. -/
def firstBdtAmount (s : String) : Option Nat := firstBdtAmountAux s.toList

/-- `IntegratedSearchSystem._validate_fee_answer`: `false` exactly when
some program named in the question has a known per-semester fee, the
answer's first BDT amount is neither that fee nor its ×8 program total,
and the answer mentions "semester". -/
def validateFeeAnswer (answer question : String) : Bool :=
  let answerLower := (pyLower answer)
  let questionLower := (pyLower question)
  !correctFees.any (fun pc =>
      strContains questionLower pc.1 &&
      match firstBdtAmount answerLower with
      | some foundFee =>
        foundFee ≠ pc.2 && foundFee ≠ pc.2 * 8 &&
        (strContains answerLower "semester" && foundFee ≠ pc.2)
      | none => false)

/-! ## Scorer: search_json_data -/

/-- `IntegratedSearchSystem._extract_phrases`: all contiguous 2-word and
3-word phrases of the text. -/
def extractPhrases (text : String) : List String :=
  let words := pySplit text
  let two := (List.range (words.length - 1)).map
    (fun i => words.getD i "" ++ " " ++ words.getD (i + 1) "")
  let three := (List.range (words.length - 2)).map
    (fun i => words.getD i "" ++ " " ++ words.getD (i + 1) "" ++ " " ++ words.getD (i + 2) "")
  two ++ three

/-- STRATEGY 0 of `search_json_data`: scan `self.data` in order and return
at the first record whose normalised question (confidence 1.0) or
question variation (confidence 0.98) equals the normalised query. -/
def exactScan (qn : String) : List DataItem → Option SearchResult
  | [] => none
  | item :: rest =>
    if pyNormalize item.question = qn then
      some { answer := item.answer, confidence := 1, method := "exact_question_match",
             isExactMatch := true }
    else if item.questionVariations.any (fun v => pyNormalize v = qn) then
      some { answer := item.answer, confidence := dq 98, method := "variation_exact_match",
             isExactMatch := true }
    else exactScan qn rest

/-- Accumulator of the word-overlap best-match tracking interleaved with
STRATEGY 0: best score so far, the matching record, and the match type. -/
structure SimBest where
  score : ℚ
  item : Option DataItem
  simType : String

/-- The word-overlap similarity update for one record: Jaccard (0.5) plus
query-word coverage (0.5) against the question when both sides have at
least two distinct words, then plain Jaccard against each variation with
at least two distinct words; the strictly best score wins. -/
def wordSimStep (userWords : List String) (best : SimBest) (item : DataItem) : SimBest :=
  let datasetWords := wordSet (pyNormalize item.question)
  let best :=
    if 2 ≤ userWords.length ∧ 2 ≤ datasetWords.length then
      let inter := interCard datasetWords userWords
      let union := unionCard datasetWords userWords
      let jaccard : ℚ := if 0 < union then qDiv (inter : ℚ) (union : ℚ) else 0
      let coverage : ℚ :=
        if 0 < userWords.length then qDiv (inter : ℚ) (userWords.length : ℚ) else 0
      let combined := qAdd (qMul jaccard (dq 50)) (qMul coverage (dq 50))
      if best.score < combined then ⟨combined, some item, "word_similarity"⟩ else best
    else best
  item.questionVariations.foldl
    (fun b v =>
      let variationWords := wordSet (pyLower v)
      if 2 ≤ variationWords.length then
        let inter := interCard variationWords userWords
        let union := unionCard variationWords userWords
        let varSim : ℚ := if 0 < union then qDiv (inter : ℚ) (union : ℚ) else 0
        if b.score < varSim then ⟨varSim, some item, "variation_similarity"⟩ else b
      else b)
    best

/-- The full best-word-similarity scan over `self.data`. -/
def wordSimScan (userWords : List String) (data : List DataItem) : SimBest :=
  data.foldl (wordSimStep userWords) ⟨0, none, ""⟩

/-- A NumPy score array read; out of range raises `IndexError`. -/
def arrGet (a : List ℚ) (i : Nat) : Except Unit ℚ :=
  match a.get? i with
  | some v => Except.ok v
  | none => Except.error ()

/-- A NumPy score array write; out of range raises `IndexError`. -/
def arrSet (a : List ℚ) (i : Nat) (v : ℚ) : Except Unit (List ℚ) :=
  if i < a.length then Except.ok (a.set i v) else Except.error ()

/-- STRATEGY 2: keyword-overlap boost per indexed record. -/
def keywordScores (userKeywords : List String) (keywordsList : List (List String)) : List ℚ :=
  keywordsList.map (fun keywords =>
    if keywords.isEmpty then 0
    else
      let keywordTokens := wordSet (" ".intercalate keywords)
      let m : ℚ := qDiv (interCard userKeywords keywordTokens : ℚ) (max userKeywords.length 1 : ℚ)
      qMul m (dq 30))

/-- STRATEGY 3: variation matching.  The loop runs over `self.data` but
writes into an array sized by the filtered `self.questions`, so with
blocked records present an in-bounds check can fail exactly as the NumPy
indexing would. -/
def variationScores (sys : IntegratedSearchSystem) (userKeywords : List String) :
    Except Unit (List ℚ) :=
  (sys.data.enum).foldlM
    (fun arr (iv : Nat × DataItem) =>
      iv.2.questionVariations.foldlM
        (fun (a : List ℚ) v => do
          let processedVariation := preprocess sys v
          let variationWords := wordSet processedVariation
          let m : ℚ := qDiv (interCard userKeywords variationWords : ℚ) (max userKeywords.length 1 : ℚ)
          let cur ← arrGet a iv.1
          if cur < m then arrSet a iv.1 (qMul m (dq 25)) else pure a)
        arr)
    (List.replicate sys.questions.length (0 : ℚ))

/-- STRATEGY 4: phrase matching over the indexed questions, reading the
original question text through the (possibly misaligned) `self.data`. -/
def phraseScores (sys : IntegratedSearchSystem) (phrases : List String) :
    Except Unit (List ℚ) :=
  (List.range sys.questions.length).mapM
    (fun idx => do
      let item ← match sys.data.get? idx with
        | some it => Except.ok it
        | none => Except.error ()
      let originalQuestion := (pyLower item.question)
      pure (phrases.foldl
        (fun acc ph =>
          if strContains originalQuestion ph && 3 < ph.length then qAdd acc (dq 15) else acc)
        (0 : ℚ)))

/-- STRATEGY 5: department boost/penalty.  Writes happen only for records
that take the boost or penalty branch, again indexed by position in
`self.data`. -/
def departmentScoresArr (sys : IntegratedSearchSystem) (detected : String) :
    Except Unit (List ℚ) :=
  if detected = "" then Except.ok (List.replicate sys.questions.length 0)
  else
    (sys.data.enum).foldlM
      (fun arr (iv : Nat × DataItem) =>
        let s := departmentScore detected iv.2
        if s ≠ 0 then arrSet arr iv.1 s else pure arr)
      (List.replicate sys.questions.length (0 : ℚ))

/-- Index of the (earliest) maximal combined score: the top of
`np.argsort(combined_scores)[-3:][::-1]`. -/
def argmaxIdx (l : List ℚ) : Nat :=
  (l.enum.foldl (fun best iv => if best.2 < iv.2 then iv else best) (0, l.getD 0 0)).1

/-- STRATEGIES 1–5 of `search_json_data` (reached when no exact or
high-word-similarity match short-circuits): TF-IDF plus keyword,
variation, phrase and department scores, combined by the fixed weighted
sum, thresholded at 0.25, with fee-answer validation on the best hit. -/
def searchJsonDataStrategies (sys : IntegratedSearchSystem) (userInput userInputLower
    detectedDepartment : String) : Except Unit SearchResult := do
  let processedInput := preprocess sys userInput
  let userKeywords := wordSet processedInput
  let similarities := (List.range sys.questions.length).map (sys.rawSims processedInput)
  let keywordArr := keywordScores userKeywords sys.keywordsList
  let variationArr ← variationScores sys userKeywords
  let phraseArr ← phraseScores sys (extractPhrases userInputLower)
  let departmentArr ← departmentScoresArr sys detectedDepartment
  let combinedScores := (List.range sys.questions.length).map
    (fun i => qAdd (qMul (similarities.getD i 0) (dq 40))
      (qAdd (qMul (keywordArr.getD i 0) (dq 20))
        (qAdd (qMul (variationArr.getD i 0) (dq 10))
          (qAdd (qMul (phraseArr.getD i 0) (dq 10))
            (qMul (departmentArr.getD i 0) (dq 20))))))
  let bestIdx := argmaxIdx combinedScores
  let bestScore := combinedScores.getD bestIdx 0
  if dq 25 ≤ bestScore then
    let answer := sys.answers.getD bestIdx ""
    let bestScore :=
      if isFeeQuestion userInput ∧ ¬ validateFeeAnswer answer userInput then dq 30
      else bestScore
    pure { answer := answer, confidence := bestScore,
           method := "optimized_multi_strategy_search" }
  else pure { answer := "", confidence := 0, method := "no_match" }

/-- `IntegratedSearchSystem.search_json_data`.  An `Except.error` result
stands for the `IndexError` a misaligned NumPy write raises; it is caught
by `integrated_search`'s `try`.  The sklearn cosine-similarity row is the
abstract `sys.rawSims` applied to the preprocessed query. -/
def searchJsonData (sys : IntegratedSearchSystem) (userInput : String) :
    Except Unit SearchResult :=
  if sys.questions.isEmpty then
    Except.ok { answer := "", confidence := 0, method := "no_data" }
  else if ¬ sys.vectorizer then
    Except.ok { answer := "", confidence := 0, method := "vectorizer_not_trained" }
  else
    let userInputLower := pyStrip (pyLower userInput)
    let userInputNormalized := " ".intercalate (pySplit userInputLower)
    let detectedDepartment := detectDepartment userInputLower
    match exactScan userInputNormalized sys.data with
    | some res => Except.ok res
    | none =>
      let userWords := wordSet userInputNormalized
      let best := wordSimScan userWords sys.data
      match best.item with
      | some bestItem =>
        if dq 50 ≤ best.score then
          Except.ok { answer := bestItem.answer,
                      confidence := qMin (qAdd (dq 85) (qMul best.score (dq 15))) (dq 98),
                      method := "high_" ++ best.simType, isExactMatch := true }
        else searchJsonDataStrategies sys userInput userInputLower detectedDepartment
      | none => searchJsonDataStrategies sys userInput userInputLower detectedDepartment

/-! ## Scorer: search_instruction_responses -/

/-- `key_terms` of STRATEGY 3 of `search_instruction_responses`. -/
def keyTerms : List String :=
  ["fee", "admission", "program", "course", "scholarship", "requirement",
   "faculty", "department", "contact", "facility", "hostel", "library"]

/-- The combined weighted score `search_instruction_responses` computes
for one instruction against the query. -/
def instructionScore (sys : IntegratedSearchSystem) (processedInput userInputLower
    instruction : String) : ℚ :=
  let processedInstruction := preprocess sys instruction
  let inputWords := wordSet processedInput
  let instructionWords := wordSet processedInstruction
  let inter := interCard inputWords instructionWords
  let union := unionCard inputWords instructionWords
  let jaccardScore : ℚ := if 0 < union then qDiv (inter : ℚ) (union : ℚ) else 0
  let inputList := pySplit processedInput
  let instructionList := pySplit processedInstruction
  let orderMatches := inputList.enum.foldl
    (fun acc (iw : Nat × String) =>
      if instructionList.contains iw.2 then
        let instPos := firstIdx instructionList iw.2
        let positionDiff : ℚ :=
          qAbs (qSub (qDiv (iw.1 : ℚ) (inputList.length : ℚ))
            (qDiv (instPos : ℚ) (instructionList.length : ℚ)))
        qAdd acc (qMul (qSub 1 positionDiff) (dq 10))
      else acc)
    (0 : ℚ)
  let orderScore : ℚ :=
    if inputList.isEmpty then 0 else qDiv orderMatches (inputList.length : ℚ)
  let presentTerms := keyTerms.filter (fun t => strContains processedInput t)
  let keyTermMatches := (keyTerms.filter
    (fun t => strContains processedInput t && strContains processedInstruction t)).length
  let keyTermScore : ℚ :=
    if presentTerms.isEmpty then 0
    else qDiv (keyTermMatches : ℚ) (presentTerms.length : ℚ)
  let phrases := extractPhrases userInputLower
  let instructionLower := (pyLower instruction)
  let phraseMatches := (phrases.filter
    (fun p => strContains instructionLower p && 5 < p.length)).length
  let phraseScore : ℚ := qMul (qDiv (phraseMatches : ℚ) (max phrases.length 1 : ℚ)) (dq 30)
  qAdd (qMul jaccardScore (dq 40)) (qAdd (qMul orderScore (dq 20))
    (qAdd (qMul keyTermScore (dq 25)) (qMul phraseScore (dq 15))))

/-- `IntegratedSearchSystem.search_instruction_responses`: score every
instruction-response pair, keep those above 0.15, and return the best
(`list.sort` is stable, so the earliest maximal score wins). -/
def searchInstructionResponses (sys : IntegratedSearchSystem) (userInput : String) :
    SearchResult :=
  if sys.instructionResponses.isEmpty then
    { answer := "", confidence := 0, method := "no_instruction_data" }
  else
    let processedInput := preprocess sys userInput
    let userInputLower := (pyLower userInput)
    let scored := sys.instructionResponses.filterMap
      (fun ir =>
        let processedInstruction := preprocess sys ir.1
        if processedInstruction = "" ∨ processedInput = "" then none
        else
          let combined := instructionScore sys processedInput userInputLower ir.1
          if dq 15 < combined then some (ir.2, combined) else none)
    match scored with
    | [] => { answer := "", confidence := 0, method := "no_match" }
    | m :: ms =>
      let best := ms.foldl (fun b x => if b.2 < x.2 then x else b) m
      { answer := best.1, confidence := best.2, method := "optimized_instruction_match" }

/-! ## Confidence router: integrated_search -/

/-- Python `f"{confidence:.0%}"`: the percentage rounded to a whole
number with round-half-to-even, followed by `%`. -/
def pctString (c : ℚ) : String :=
  let x := qMul c (Rat.divInt 100 1)
  let f := Rat.floor x
  let r := qSub x (Rat.divInt f 1)
  let n :=
    if r < Rat.divInt 1 2 then f
    else if Rat.divInt 1 2 < r then f + 1
    else if f % 2 = 0 then f else f + 1
  toString n ++ "%"

/-- The confidence notice of the high-confidence branch: appended
whenever the confidence is below 0.85. -/
def highConfNotice (c : ℚ) : String :=
  if c < dq 85 then
    "\n\n⚠️ *Confidence: " ++ pctString c ++ " - Please verify with admission office if needed.*"
  else ""

/-- The confidence notice of the medium-confidence branch. -/
def mediumConfNotice (c : ℚ) : String :=
  "\n\n⚠️ *Confidence: " ++ pctString c ++
    " - Please verify with admission office for latest information.*"

/-- The static refusal returned offline when every source scored low. -/
def offlineFallbackAnswer : String :=
  "I found some information but I'm not fully confident about the answer. Please rephrase your question or ask about specific topics like admissions, fees, programs, or facilities at Green University."

/-- `best_result = instruction_result` when its confidence is strictly
higher, `json_result` otherwise. -/
def chooseBestResult (instructionResult jsonResult : SearchResult) : SearchResult :=
  if jsonResult.confidence < instructionResult.confidence then instructionResult else jsonResult

/-- The fee-validation downgrade of `integrated_search`: a fee question
whose best non-empty answer fails `_validate_fee_answer` has its
confidence forced to 0.3. -/
def feeAdjust (userInput : String) (best : SearchResult) : SearchResult :=
  if isFeeQuestion userInput ∧ best.answer ≠ "" ∧ ¬ validateFeeAnswer best.answer userInput then
    { best with confidence := dq 30 }
  else best

/-- The confidence-threshold chain of `integrated_search` applied to the
best (fee-adjusted) result: ≥ 0.7 exact dataset answer (with a notice
below 0.85), ≥ 0.4 dataset answer with notice, ≥ 0.25 LLM enhancement
with the dataset answer as context (or the noticed dataset answer when
offline/unavailable), otherwise primary generation or the static
refusal. -/
def routeByConfidence (sys : IntegratedSearchSystem) (userInput : String)
    (best : SearchResult) : ChatResponse :=
  if dq 70 ≤ best.confidence then
    { answer := best.answer ++ highConfNotice best.confidence,
      confidence := best.confidence, method := "exact_dataset_match" }
  else if dq 40 ≤ best.confidence then
    { answer := best.answer ++ mediumConfNotice best.confidence,
      confidence := best.confidence, method := "dataset_match_medium" }
  else if dq 25 ≤ best.confidence then
    if ¬ sys.offlineMode ∧ sys.llmAvailable then
      { answer := sys.llmGen userInput
          ("IMPORTANT - Use this EXACT information from our database:\n" ++ best.answer) ++
          "\n\n⚠️ *Confidence: " ++ pctString best.confidence ++
          " - This information may need verification.*",
        confidence := best.confidence, method := "llm_enhanced_low_confidence" }
    else
      { answer := best.answer ++ "\n\n⚠️ *Confidence: " ++ pctString best.confidence ++ "*",
        confidence := best.confidence, method := best.method }
  else
    if ¬ sys.offlineMode ∧ sys.llmAvailable then
      { answer := sys.llmGen userInput "", confidence := dq 80,
        method := "llama_primary_multi_search" }
    else
      { answer := offlineFallbackAnswer, confidence := best.confidence,
        method := "enhanced_offline_fallback" }

/-- `IntegratedSearchSystem.integrated_search`: run both searches, return
a JSON exact match immediately, otherwise pick the higher-confidence
result, apply the fee-validation downgrade and route by confidence; a
propagated search exception yields the error response of the enclosing
`except`. -/
def integratedSearch (sys : IntegratedSearchSystem) (userInput : String) : ChatResponse :=
  let instructionResult := searchInstructionResponses sys userInput
  match searchJsonData sys userInput with
  | Except.error _ =>
    { answer := "An error occurred during search. Please try again.",
      confidence := 0, method := "search_error" }
  | Except.ok jsonResult =>
    if jsonResult.isExactMatch then
      { answer := jsonResult.answer, confidence := jsonResult.confidence,
        method := jsonResult.method }
    else
      routeByConfidence sys userInput
        (feeAdjust userInput (chooseBestResult instructionResult jsonResult))

/-! ## Feedback store: record_feedback -/

/-- `IntegratedSearchSystem.record_feedback`: append the feedback entry
and update the learning counters; a dislike additionally appends a
blocked answer and retrains (`preprocess_all_data` + `train_models`).
Persisting to disk (`save_feedback_data`) is I/O and not modelled. -/
def recordFeedback (sys : IntegratedSearchSystem) (userQuestion botAnswer
    feedbackType : String) : IntegratedSearchSystem :=
  let sys := { sys with
    feedbackData := sys.feedbackData ++
      [{ question := userQuestion, answer := botAnswer, feedback := feedbackType }],
    totalFeedback := sys.totalFeedback + 1 }
  if feedbackType = "like" then { sys with likes := sys.likes + 1 }
  else if feedbackType = "dislike" then
    let sys := { sys with
      dislikes := sys.dislikes + 1,
      blockedAnswers := sys.blockedAnswers + 1,
      dislikedAnswers := sys.dislikedAnswers ++
        [{ answer := botAnswer, question := userQuestion }] }
    trainModels (preprocessAllData sys)
  else sys

/-- `n` successive identical LIKE submissions through `record_feedback`. -/
def repeatLike (sys : IntegratedSearchSystem) (userQuestion botAnswer : String) :
    Nat → IntegratedSearchSystem
  | 0 => sys
  | n + 1 => recordFeedback (repeatLike sys userQuestion botAnswer n) userQuestion botAnswer "like"

/-! ## Corpus loading: load_dataset_files -/

/-- The `priority_files` list of `load_dataset_files`. -/
def priorityFiles : List String :=
  ["Fee_Summary_CRITICAL.json", "CSE_improved.json", "EEE_improved.json",
   "BBA_improved.json", "General_University_Info.json"]

/-- The static supersession rule of `load_dataset_files`: an old file is
skipped when its improved counterpart is present in the folder listing. -/
def skipOldFile (names : List String) (filename : String) : Bool :=
  (filename = "cse.json" && names.contains "CSE_improved.json") ||
  (filename = "EEE2.json" && names.contains "EEE_improved.json") ||
  (filename = "BBA.json" && names.contains "BBA_improved.json")

/-- Conversion of one parsed dataset item into a `self.data` record, with
the priority confidence boost. -/
def convertDatasetItem (filename : String) (isPriority : Bool) (item : DataItem) : DataItem :=
  let priorityBoost : ℚ :=
    if item.priority = "critical" ∨ isPriority then dq 20
    else if item.priority = "high" then dq 10
    else 0
  { item with
    source := "dataset_" ++ filename,
    confidenceScore := qMin (qAdd item.confidenceScore priorityBoost) 1 }

/-- `IntegratedSearchSystem.load_dataset_files` over an abstract folder:
an ordered listing of `.json` filenames with their parsed record lists
(items lacking a question or answer are already absent, matching the
per-item guard; unreadable files are skipped by the per-file `except` and
likewise absent).  Non-skipped files are appended in listing order. -/
def loadDatasetFiles (sys : IntegratedSearchSystem)
    (folder : List (String × List DataItem)) : IntegratedSearchSystem :=
  let names := folder.map Prod.fst
  let newRecords := (folder.map
    (fun file =>
      if pyEndsWith file.1 ".json" && !skipOldFile names file.1 then
        file.2.map (convertDatasetItem file.1 (priorityFiles.contains file.1))
      else [])).flatten
  { sys with data := sys.data ++ newRecords }

/-! ## Enhanced chatbot V2 (enhanced_ollama_chatbot_v2.py) -/

/-- The state of `EnhancedOllamaChatbotV2`: its feedback log, blocked
answers and the configured similarity threshold (default 0.7). -/
structure EnhancedOllamaChatbotV2 where
  feedbackData : List FeedbackItem := []
  dislikedAnswers : List DislikedEntry := []
  similarityThreshold : ℚ := dq 70

/-- `EnhancedOllamaChatbotV2.is_similar_to_disliked`: token-overlap
similarity (intersection over the larger set) strictly above the
threshold against any blocked answer. -/
def isSimilarToDisliked (bot : EnhancedOllamaChatbotV2) (generatedAnswer : String) : Bool :=
  if bot.dislikedAnswers.isEmpty then false
  else
    let generatedLower := pyStrip (pyLower generatedAnswer)
    bot.dislikedAnswers.any (fun disliked =>
      let dislikedAnswer := pyStrip (pyLower disliked.answer)
      if dislikedAnswer = "" then false
      else
        let generatedWords := wordSet generatedLower
        let dislikedWords := wordSet dislikedAnswer
        if generatedWords.length = 0 ∨ dislikedWords.length = 0 then false
        else
          bot.similarityThreshold <
            qDiv (interCard generatedWords dislikedWords : ℚ)
              (max generatedWords.length dislikedWords.length : ℚ))

/-- `EnhancedOllamaChatbotV2._contains_non_english`: any character in the
Bengali (U+0980–09FF) or Devanagari (U+0900–097F) Unicode ranges. -/
def containsNonEnglish (text : String) : Bool :=
  text.toList.any (fun c =>
    (0x0980 ≤ c.toNat ∧ c.toNat ≤ 0x09FF) ∨ (0x0900 ≤ c.toNat ∧ c.toNat ≤ 0x097F))

/-- `EnhancedOllamaChatbotV2._get_fallback_english_response`: static
English answers keyed on the question's fee keywords and department. -/
def fallbackEnglishResponse (userQuestion _ragContext : String) : String :=
  let questionLower := (pyLower userQuestion)
  if strContains questionLower "fee" || strContains questionLower "tuition"
      || strContains questionLower "cost" then
    if strContains questionLower "eee" || strContains questionLower "electrical" then
      "The EEE (Electrical and Electronic Engineering) program at Green University has the following fee structure:\n\n**Tuition Fee:** BDT 80,000 per semester\n**Total Program Cost (4 years):** Approximately BDT 640,000 - 700,000\n\n**Additional Fees:**\n- Admission Fee: BDT 15,000 - 20,000 (one-time)\n- Application Fee: BDT 500 - 1,000\n\nFor the most current fee information, please contact the admission office."
    else if strContains questionLower "cse" || strContains questionLower "computer" then
      "The CSE (Computer Science and Engineering) program at Green University has the following fee structure:\n\n**Tuition Fee:** BDT 70,000 per semester\n**Total Program Cost (4 years):** Approximately BDT 560,000 - 600,000\n\n**Additional Fees:**\n- Admission Fee: BDT 15,000 - 20,000 (one-time)\n- Application Fee: BDT 500 - 1,000\n\nFor the most current fee information, please contact the admission office."
    else if strContains questionLower "bba" || strContains questionLower "business" then
      "The BBA (Bachelor of Business Administration) program at Green University has the following fee structure:\n\n**Tuition Fee:** BDT 60,000 per semester\n**Total Program Cost (4 years):** Approximately BDT 480,000 - 520,000\n\n**Additional Fees:**\n- Admission Fee: BDT 15,000 - 20,000 (one-time)\n- Application Fee: BDT 500 - 1,000\n\nFor the most current fee information, please contact the admission office."
    else
      "I apologize, but I can only respond in English. Please rephrase your question, and I will provide accurate information from our university database."
  else
    "I apologize, but I can only respond in English. Please rephrase your question, and I will provide accurate information from our university database."

/-- `EnhancedOllamaChatbotV2.generate_response`.  The three possible
Ollama network calls are external; their outcomes are passed in:
`firstResponse` for the initial generation, `englishRetry` for
`_force_english_regeneration` (`none` models a failed request), and
`retryResponse` for the single anti-repetition regeneration.  The flow:
the first response is replaced by the English regeneration (or the static
fallback) when it contains non-English characters; if the result is
similar to a disliked answer it is regenerated once with a stronger
prompt and that second attempt is returned without any further check
(`_format_response_with_feedback` is the identity). -/
def generateResponse (bot : EnhancedOllamaChatbotV2) (userQuestion ragContext : String)
    (firstResponse : String) (englishRetry : Option String) (retryResponse : String) : String :=
  let generated :=
    if containsNonEnglish firstResponse then
      match englishRetry with
      | some e =>
        if ¬ containsNonEnglish e then e else fallbackEnglishResponse userQuestion ragContext
      | none => fallbackEnglishResponse userQuestion ragContext
    else firstResponse
  let generated := if isSimilarToDisliked bot generated then retryResponse else generated
  generated

/-- `EnhancedOllamaChatbotV2.handle_feedback`: append the entry; a
dislike also appends to the blocked answers (`save_disliked_answer`); the
returned string is the result's `action` field. -/
def handleFeedback (bot : EnhancedOllamaChatbotV2) (question answer feedback : String) :
    EnhancedOllamaChatbotV2 × String :=
  let bot := { bot with feedbackData := bot.feedbackData ++
    [{ question := question, answer := answer, feedback := feedback }] }
  if feedback = "dislike" then
    ({ bot with dislikedAnswers := bot.dislikedAnswers ++
        [{ answer := answer, question := question }] }, "answer_blocked")
  else if feedback = "like" then (bot, "pattern_learned")
  else (bot, "recorded")

/-- `n` successive identical LIKE submissions through the V2 handler. -/
def repeatLikeV2 (bot : EnhancedOllamaChatbotV2) (question answer : String) :
    Nat → EnhancedOllamaChatbotV2
  | 0 => bot
  | n + 1 => (handleFeedback (repeatLikeV2 bot question answer n) question answer "like").1

/-! ## Decidable equality for search outcomes -/

instance : DecidableEq (Except Unit SearchResult) := fun x y =>
  match x, y with
  | Except.error a, Except.error b => isTrue (by cases a; cases b; rfl)
  | Except.ok a, Except.ok b =>
    if h : a = b then isTrue (by rw [h])
    else isFalse (fun he => h (Except.ok.inj he))
  | Except.error _, Except.ok _ => isFalse (fun h => Except.noConfusion h)
  | Except.ok _, Except.error _ => isFalse (fun h => Except.noConfusion h)

/-! ## Concrete demonstration states

Each state is built through the real initialisation pipeline
(`preprocess_all_data` followed by `train_models`) from a small corpus;
the abstract externals are instantiated with concrete values (`lemmatize`
the identity, no stop words, a constant TF-IDF similarity row). -/

/-- Two-record corpus used for the dislike round trip. -/
def dislikeDemoBase : IntegratedSearchSystem :=
  { data := [{ question := "what is the cse fee", answer := "answer one" },
             { question := "library hours", answer := "answer two" }] }

/-- The system right after `record_feedback` blocks "answer one". -/
def dislikeDemoAfter : IntegratedSearchSystem :=
  recordFeedback (trainModels (preprocessAllData dislikeDemoBase))
    "what is the cse fee" "answer one" "dislike"

/-- One-record system whose (abstract) TF-IDF similarity row is the given
constant, so the multi-strategy combined score is `sim * 0.4` for a query
matching nothing else. -/
def routerDemo (sim : ℚ) : IntegratedSearchSystem :=
  trainModels (preprocessAllData
    { data := [{ question := "alpha beta", answer := "Dataset answer." }],
      rawSims := fun _ _ => sim })

/-- A record whose question variation equals a later record's question. -/
def shadowDemo : IntegratedSearchSystem :=
  trainModels (preprocessAllData
    { data := [{ question := "campus tour info", answer := "Answer A",
                 questionVariations := ["hello world"] },
               { question := "hello world", answer := "Answer B" }] })

/-- The single record of the exact-question demonstration. -/
def exactDemoItem : DataItem :=
  { question := "what are the library hours", answer := "Answer B" }

/-- One-record system for the exact-question match. -/
def exactDemo : IntegratedSearchSystem :=
  trainModels (preprocessAllData { data := [exactDemoItem] })

/-- A CSE record whose answer carries a wrong fee without the word
"semester"; the similarity row is tuned so the combined score is 0.9. -/
def feeDemo : IntegratedSearchSystem :=
  trainModels (preprocessAllData
    { data := [{ question := "cse course list", answer := "The CSE tuition is BDT 75,000." }],
      rawSims := fun _ _ => Rat.divInt 41 20 })

/-- A record answering its own question with a fee contradicting the
ground-truth table (CSE is 70,000, the answer says 99,000 per semester). -/
def exactBadFeeDemo : IntegratedSearchSystem :=
  trainModels (preprocessAllData
    { data := [{ question := "what is the cse fee",
                 answer := "The CSE fee is BDT 99,000 per semester." }] })

/-- A system with an empty corpus (no index is ever built). -/
def emptyDemo : IntegratedSearchSystem := { data := [] }

/-- A chatbot state with one blocked answer of five words. -/
def similarDemoBot : EnhancedOllamaChatbotV2 :=
  { dislikedAnswers := [{ answer := "a b c d e", question := "Q" }] }

/-- The record with only CSE-exclusive keywords used against an EEE query. -/
def cseFeeItem : DataItem :=
  { question := "what is the cse fee?", answer := "bdt 70,000 per semester",
    department := "cse" }

/-- A dataset folder whose single file holds two records with the same
normalised question. -/
def dupFolderDemo : List (String × List DataItem) :=
  [("a.json", [{ question := "Duplicate Q", answer := "A1" },
               { question := "duplicate   q", answer := "A2" }])]

/-- A dataset folder holding an improved file next to its superseded one. -/
def supersedeFolderDemo : List (String × List DataItem) :=
  [("CSE_improved.json", [{ question := "Improved Q", answer := "AI" }]),
   ("cse.json", [{ question := "Old Q", answer := "AO" }])]

/-! ## Bridge lemmas: the reducible arithmetic is standard ℚ arithmetic -/

theorem dq_eq (n : ℤ) : dq n = (n : ℚ) / 100 := by
  rw [dq, Rat.divInt_eq_div]
  norm_num

theorem qAdd_eq (a b : ℚ) : qAdd a b = a + b := by
  rw [qAdd, Rat.divInt_eq_div]
  have ha : ((a.den : ℚ)) ≠ 0 := Nat.cast_ne_zero.mpr a.den_nz
  have hb : ((b.den : ℚ)) ≠ 0 := Nat.cast_ne_zero.mpr b.den_nz
  conv_rhs => rw [← Rat.num_div_den a, ← Rat.num_div_den b]
  field_simp

theorem qMul_eq (a b : ℚ) : qMul a b = a * b := by
  rw [qMul, Rat.divInt_eq_div]
  have ha : ((a.den : ℚ)) ≠ 0 := Nat.cast_ne_zero.mpr a.den_nz
  have hb : ((b.den : ℚ)) ≠ 0 := Nat.cast_ne_zero.mpr b.den_nz
  conv_rhs => rw [← Rat.num_div_den a, ← Rat.num_div_den b]
  field_simp

theorem qDiv_eq (a b : ℚ) : qDiv a b = a / b := by
  rcases eq_or_ne b 0 with rfl | hb
  · rw [qDiv]
    norm_num
  · rw [qDiv, Rat.divInt_eq_div]
    have ha : ((a.den : ℚ)) ≠ 0 := Nat.cast_ne_zero.mpr a.den_nz
    have hdb : ((b.den : ℚ)) ≠ 0 := Nat.cast_ne_zero.mpr b.den_nz
    have hnb : ((b.num : ℚ)) ≠ 0 := by
      simpa using Rat.num_ne_zero.mpr hb
    conv_rhs => rw [← Rat.num_div_den a, ← Rat.num_div_den b]
    field_simp

theorem qSub_eq (a b : ℚ) : qSub a b = a - b := by
  rw [qSub, qAdd_eq]
  ring

theorem qMin_eq (a b : ℚ) : qMin a b = min a b := by
  rw [qMin, min_def]

theorem qAbs_eq (a : ℚ) : qAbs a = |a| := by
  rw [qAbs]
  rcases lt_or_le a 0 with h | h
  · rw [if_pos h, abs_of_neg h]
  · rw [if_neg (not_lt.mpr h), abs_of_nonneg h]

theorem dq70_eq : dq 70 = (0.7 : ℚ) := by rw [dq_eq]; norm_num

theorem dq85_eq : dq 85 = (0.85 : ℚ) := by rw [dq_eq]; norm_num

theorem dq40_eq : dq 40 = (0.4 : ℚ) := by rw [dq_eq]; norm_num

theorem dq25_eq : dq 25 = (0.25 : ℚ) := by rw [dq_eq]; norm_num

theorem dq30_eq : dq 30 = (0.3 : ℚ) := by rw [dq_eq]; norm_num

theorem dq80_eq : dq 80 = (0.8 : ℚ) := by rw [dq_eq]; norm_num

theorem dq90_eq : dq 90 = (0.9 : ℚ) := by rw [dq_eq]; norm_num

theorem dq98_eq : dq 98 = (0.98 : ℚ) := by rw [dq_eq]; norm_num

theorem dqm50_eq : dq (-50) = (-0.5 : ℚ) := by rw [dq_eq]; norm_num

/-! ## Helper lemmas about the exact-match scan and the router -/

theorem exactScan_eq_some (qn : String) (data : List DataItem) (res : SearchResult)
    (h : exactScan qn data = some res) :
    res.isExactMatch = true ∧ (res.confidence = 1 ∨ res.confidence = 0.98) := by
  induction data with
  | nil => simp [exactScan] at h
  | cons item rest ih =>
    rw [exactScan] at h
    split_ifs at h with h1 h2
    · cases h; exact ⟨rfl, Or.inl rfl⟩
    · cases h; exact ⟨rfl, Or.inr dq98_eq⟩
    · exact ih h

theorem exactScan_append (qn : String) (pre l : List DataItem)
    (h : ∀ r ∈ pre, pyNormalize r.question ≠ qn ∧
        ∀ v ∈ r.questionVariations, pyNormalize v ≠ qn) :
    exactScan qn (pre ++ l) = exactScan qn l := by
  induction pre with
  | nil => rfl
  | cons r rest ih =>
    have hr := h r (List.mem_cons_self r rest)
    rw [List.cons_append, exactScan, if_neg hr.1, if_neg]
    · exact ih (fun r2 hm => h r2 (List.mem_cons_of_mem r hm))
    · simp only [List.any_eq_true, decide_eq_true_eq, not_exists]
      intro v hv
      exact hr.2 v hv.1 hv.2

theorem searchJsonData_of_exactScan (sys : IntegratedSearchSystem) (q : String)
    (res : SearchResult) (hq : sys.questions ≠ []) (hv : sys.vectorizer = true)
    (h : exactScan (pyNormalize q) sys.data = some res) :
    searchJsonData sys q = Except.ok res := by
  rw [searchJsonData, if_neg, if_neg]
  · rw [pyNormalize] at h
    simp only [h]
  · rw [hv]; simp
  · simp [List.isEmpty_iff, hq]

theorem integratedSearch_route (sys : IntegratedSearchSystem) (q : String)
    (js : SearchResult) (hjs : searchJsonData sys q = Except.ok js)
    (hne : js.isExactMatch = false) :
    integratedSearch sys q =
      routeByConfidence sys q
        (feeAdjust q (chooseBestResult (searchInstructionResponses sys q) js)) := by
  rw [integratedSearch, hjs]
  simp [hne]

theorem recordFeedback_like_eq (sys : IntegratedSearchSystem) (uq ua : String) :
    recordFeedback sys uq ua "like" =
      { sys with
        feedbackData := sys.feedbackData ++ [{ question := uq, answer := ua, feedback := "like" }],
        totalFeedback := sys.totalFeedback + 1,
        likes := sys.likes + 1 } := rfl

theorem integratedSearch_ignores_feedback (sys : IntegratedSearchSystem)
    (fd : List FeedbackItem) (tf lk : Nat) (q : String) :
    integratedSearch
      { sys with feedbackData := fd, totalFeedback := tf, likes := lk } q =
      integratedSearch sys q := by
  cases sys
  rfl

theorem handleFeedback_like_eq (bot : EnhancedOllamaChatbotV2) (uq ua : String) :
    handleFeedback bot uq ua "like" =
      ({ bot with feedbackData := bot.feedbackData ++
          [{ question := uq, answer := ua, feedback := "like" }] }, "pattern_learned") := rfl

/-! ## Helper lemmas about the dataset-folder loader -/

theorem contains_map_filter_ne (folder : List (String × List DataItem)) (x : String)
    (hx : x ≠ "cse.json") :
    ((folder.filter (fun f => f.1 ≠ "cse.json")).map Prod.fst).contains x =
      (folder.map Prod.fst).contains x := by
  induction folder with
  | nil => rfl
  | cons p rest ih =>
    rw [List.filter_cons]
    by_cases hp : p.1 = "cse.json"
    · rw [if_neg (by simp [hp]), List.map_cons, List.contains_cons, ih]
      have hbe : (x == p.1) = false := by
        rw [hp]
        exact beq_eq_false_iff_ne.mpr hx
      rw [hbe, Bool.false_or]
    · rw [if_pos (by simp [hp]), List.map_cons, List.map_cons, List.contains_cons,
          List.contains_cons, ih]

theorem skipOldFile_filter_ne (folder : List (String × List DataItem)) (fn : String) :
    skipOldFile ((folder.filter (fun f => f.1 ≠ "cse.json")).map Prod.fst) fn =
      skipOldFile (folder.map Prod.fst) fn := by
  rw [skipOldFile, skipOldFile,
      contains_map_filter_ne folder "CSE_improved.json" (by decide),
      contains_map_filter_ne folder "EEE_improved.json" (by decide),
      contains_map_filter_ne folder "BBA_improved.json" (by decide)]

theorem flatten_skip_cse_aux (names : List String)
    (h : names.contains "CSE_improved.json" = true)
    (folder : List (String × List DataItem)) :
    ((folder.filter (fun f => f.1 ≠ "cse.json")).map (fun file =>
      if pyEndsWith file.1 ".json" && !skipOldFile names file.1 then
        file.2.map (convertDatasetItem file.1 (priorityFiles.contains file.1))
      else [])).flatten =
    (folder.map (fun file =>
      if pyEndsWith file.1 ".json" && !skipOldFile names file.1 then
        file.2.map (convertDatasetItem file.1 (priorityFiles.contains file.1))
      else [])).flatten := by
  have hm : "CSE_improved.json" ∈ names := by
    simpa using h
  induction folder with
  | nil => rfl
  | cons p rest ih =>
    rw [List.filter_cons]
    by_cases hp : p.1 = "cse.json"
    · rw [if_neg (by simp [hp]), List.map_cons, List.flatten_cons, ih]
      have hskip : skipOldFile names p.1 = true := by
        rw [skipOldFile, hp]
        simp [hm]
      rw [if_neg (by simp [hskip]), List.nil_append]
    · rw [if_pos (by simp [hp]), List.map_cons, List.map_cons, List.flatten_cons,
          List.flatten_cons, ih]

/-! ## Claim theorems -/

set_option maxRecDepth 20000 in
/-- C1: the claim says a DISLIKE permanently excludes any record whose
answer equals the blocked text from every future search, so re-querying
the identical question never returns that answer again.  The code
violates this: `record_feedback` does rebuild the filtered
question/answer lists, but the exact-match loop of `search_json_data`
scans the unfiltered `self.data`, so the very query that was disliked
gets its blocked answer back with confidence 1.0.  This theorem
evaluates the failing input: after disliking "answer one" for its own
question, the blocklist contains the answer, yet the identical re-query
returns exactly "answer one" at confidence 1.0 through the
`exact_question_match` path. -/
theorem dislike_roundtrip_blocked_answer_returned :
    dislikeDemoAfter.dislikedAnswers =
      [{ answer := "answer one", question := "what is the cse fee" }] ∧
    searchJsonData dislikeDemoAfter "what is the cse fee" =
      Except.ok { answer := "answer one", confidence := 1,
                  method := "exact_question_match", isExactMatch := true } ∧
    integratedSearch dislikeDemoAfter "what is the cse fee" =
      { answer := "answer one", confidence := 1, method := "exact_question_match" } := by
  refine ⟨by decide, by decide, by decide⟩

/-- C2: a query that detects entity E1 never gives a positive department
sub-score to a record that carries only a different entity's keywords:
the boost (exactly +0.4, inside the claimed +0.2–0.4) fires only when
the detected department occurs in the record's department tag or
question, and a record mentioning a different department's exclusive
keywords is penalised with exactly −0.5 (inside the claimed −0.4 to
−0.5). -/
theorem entity_strategy_cross_department_score (queryText d : String) (item : DataItem)
    (_hdet : detectDepartment queryText = d) (hne : d ≠ "")
    (hdept : strContains (pyLower item.department) d = false)
    (hques : strContains (pyLower item.question) d = false) :
    departmentScore d item ≤ 0 ∧
    (mentionsDifferentDepartment (pyLower item.question) (pyLower item.answer) d = true →
      departmentScore d item = -0.5) ∧
    (∀ d2 : String, ∀ item2 : DataItem, 0 < departmentScore d2 item2 →
      departmentScore d2 item2 = 0.4) := by
  refine ⟨?_, ?_, ?_⟩
  · rw [departmentScore, if_neg hne, if_neg (by simp [hdept, hques])]
    split_ifs <;> norm_num [dq_eq]
  · intro hm
    rw [departmentScore, if_neg hne, if_neg (by simp [hdept, hques]), if_pos hm]
    exact dqm50_eq
  · intro d2 item2 h
    rw [departmentScore] at h ⊢
    split_ifs at h ⊢ <;> norm_num [dq_eq] at h ⊢

/-- C2 witness: the EEE fee query detects "eee", and the CSE fee record
(department tag "cse", question and answer mentioning only CSE) receives
the −0.5 penalty, never a positive score. -/
theorem entity_strategy_cross_department_score_witness :
    detectDepartment "how much is the eee program fee?" = "eee" ∧
    departmentScore "eee" cseFeeItem ≤ 0 ∧
    departmentScore "eee" cseFeeItem = -0.5 := by
  have h := entity_strategy_cross_department_score "how much is the eee program fee?"
    "eee" cseFeeItem (by decide) (by decide) (by decide) (by decide)
  exact ⟨by decide, h.1, h.2.1 (by decide)⟩

set_option maxRecDepth 20000 in
/-- C3 counterexample: a best combined score of exactly 0.70 is routed to
the high-confidence branch, but — contrary to the claim that no caveat
is appended for scores ≥ 0.70 — the code appends a confidence notice for
every score below 0.85, so the answer is not returned verbatim. -/
theorem confidence_router_caveat_at_exactly_070 :
    (integratedSearch (routerDemo (Rat.divInt 7 4)) "zzz qqq").confidence = (0.7 : ℚ) ∧
    (integratedSearch (routerDemo (Rat.divInt 7 4)) "zzz qqq").method =
      "exact_dataset_match" ∧
    (integratedSearch (routerDemo (Rat.divInt 7 4)) "zzz qqq").answer ≠
      "Dataset answer." := by
  have h : integratedSearch (routerDemo (Rat.divInt 7 4)) "zzz qqq" =
      { answer := "Dataset answer.\n\n⚠️ *Confidence: 70% - Please verify with admission office if needed.*",
        confidence := dq 70, method := "exact_dataset_match" } := by decide
  rw [h]
  exact ⟨dq70_eq, rfl, by decide⟩

/-- C3 amended: for a non-exact-match query, the router maps the best
fee-adjusted confidence by the documented ≥/< boundaries — ≥ 0.70 the
corpus answer as `exact_dataset_match` (verbatim only from 0.85 up, with
a confidence notice appended below 0.85, so 0.70 routes to the
high-confidence branch but with a caveat), 0.40–0.70 the corpus answer
with a caveat, 0.25–0.40 generative enhancement with the corpus answer
as context (or the caveated corpus answer when offline/unavailable),
below 0.25 primary generation (at fixed confidence 0.8) or the static
refusal. -/
theorem confidence_router_boundaries (sys : IntegratedSearchSystem) (q : String)
    (js b : SearchResult)
    (hjs : searchJsonData sys q = Except.ok js) (hne : js.isExactMatch = false)
    (hb : b = feeAdjust q (chooseBestResult (searchInstructionResponses sys q) js)) :
    (0.7 ≤ b.confidence →
      integratedSearch sys q =
        { answer := b.answer ++ highConfNotice b.confidence, confidence := b.confidence,
          method := "exact_dataset_match" } ∧
      (0.85 ≤ b.confidence → highConfNotice b.confidence = "")) ∧
    (0.4 ≤ b.confidence → b.confidence < 0.7 →
      integratedSearch sys q =
        { answer := b.answer ++ mediumConfNotice b.confidence, confidence := b.confidence,
          method := "dataset_match_medium" }) ∧
    (0.25 ≤ b.confidence → b.confidence < 0.4 →
      (sys.offlineMode = true ∨ sys.llmAvailable = false →
        integratedSearch sys q =
          { answer := b.answer ++ "\n\n⚠️ *Confidence: " ++ pctString b.confidence ++ "*",
            confidence := b.confidence, method := b.method }) ∧
      (sys.offlineMode = false → sys.llmAvailable = true →
        integratedSearch sys q =
          { answer := sys.llmGen q
              ("IMPORTANT - Use this EXACT information from our database:\n" ++ b.answer) ++
              "\n\n⚠️ *Confidence: " ++ pctString b.confidence ++
              " - This information may need verification.*",
            confidence := b.confidence, method := "llm_enhanced_low_confidence" })) ∧
    (b.confidence < 0.25 →
      (sys.offlineMode = true ∨ sys.llmAvailable = false →
        integratedSearch sys q =
          { answer := offlineFallbackAnswer, confidence := b.confidence,
            method := "enhanced_offline_fallback" }) ∧
      (sys.offlineMode = false → sys.llmAvailable = true →
        integratedSearch sys q =
          { answer := sys.llmGen q "", confidence := 0.8,
            method := "llama_primary_multi_search" })) := by
  have hroute := integratedSearch_route sys q js hjs hne
  rw [← hb] at hroute
  refine ⟨?_, ?_, ?_, ?_⟩
  · intro h1
    refine ⟨?_, ?_⟩
    · rw [hroute, routeByConfidence, if_pos (by rw [dq70_eq]; exact h1)]
    · intro h2
      rw [highConfNotice, if_neg (by rw [dq85_eq]; exact not_lt.mpr h2)]
  · intro h1 h2
    rw [hroute, routeByConfidence, if_neg (by rw [dq70_eq]; exact not_le.mpr h2),
        if_pos (by rw [dq40_eq]; exact h1)]
  · intro h1 h2
    constructor
    · intro hoff
      rw [hroute, routeByConfidence, if_neg (by rw [dq70_eq]; linarith),
          if_neg (by rw [dq40_eq]; exact not_le.mpr h2),
          if_pos (by rw [dq25_eq]; exact h1), if_neg]
      intro hc
      rcases hoff with ho | hl
      · exact hc.1 (by simp [ho])
      · rw [hl] at hc
        exact absurd hc.2 (by simp)
    · intro ho hl
      rw [hroute, routeByConfidence, if_neg (by rw [dq70_eq]; linarith),
          if_neg (by rw [dq40_eq]; exact not_le.mpr h2),
          if_pos (by rw [dq25_eq]; exact h1), if_pos (by simp [ho, hl])]
  · intro h1
    constructor
    · intro hoff
      rw [hroute, routeByConfidence, if_neg (by rw [dq70_eq]; linarith),
          if_neg (by rw [dq40_eq]; linarith), if_neg (by rw [dq25_eq]; exact not_le.mpr h1),
          if_neg]
      intro hc
      rcases hoff with ho | hl
      · exact hc.1 (by simp [ho])
      · rw [hl] at hc
        exact absurd hc.2 (by simp)
    · intro ho hl
      rw [hroute, routeByConfidence, if_neg (by rw [dq70_eq]; linarith),
          if_neg (by rw [dq40_eq]; linarith), if_neg (by rw [dq25_eq]; exact not_le.mpr h1),
          if_pos (by simp [ho, hl]), dq80_eq]

set_option maxRecDepth 20000 in
/-- C3 witness: a concrete non-exact search whose combined score is 0.9
routes through the amended boundaries to the high-confidence branch with
an empty notice (0.9 ≥ 0.85). -/
theorem confidence_router_boundaries_witness :
    integratedSearch (routerDemo (Rat.divInt 9 4)) "zzz qqq" =
      { answer := "Dataset answer." ++ highConfNotice (dq 90), confidence := dq 90,
        method := "exact_dataset_match" } ∧
    highConfNotice (dq 90) = "" := by
  have h := (confidence_router_boundaries (routerDemo (Rat.divInt 9 4)) "zzz qqq"
      { answer := "Dataset answer.", confidence := dq 90,
        method := "optimized_multi_strategy_search", isExactMatch := false }
      { answer := "Dataset answer.", confidence := dq 90,
        method := "optimized_multi_strategy_search", isExactMatch := false }
      (by decide) (by decide) (by decide)).1
    (by show (0.7 : ℚ) ≤ dq 90; rw [dq90_eq]; norm_num)
  exact ⟨h.1, h.2 (by show (0.85 : ℚ) ≤ dq 90; rw [dq90_eq]; norm_num)⟩

set_option maxRecDepth 20000 in
/-- C4 counterexample: the query "hello world" equals the second
record's normalised question, yet the scan returns the FIRST record's
answer at confidence 0.98 through its question variation — not the
second record's answer at confidence 1.0 as the claim requires. -/
theorem exact_question_match_shadowed_by_variation :
    (shadowDemo.data.map (fun r => pyNormalize r.question)) =
      ["campus tour info", "hello world"] ∧
    searchJsonData shadowDemo "hello world" =
      Except.ok { answer := "Answer A", confidence := dq 98,
                  method := "variation_exact_match", isExactMatch := true } ∧
    dq 98 ≠ (1 : ℚ) ∧ "Answer A" ≠ "Answer B" := by
  refine ⟨by decide, by decide, by decide, by decide⟩

/-- C4 amended: the exact-match scan returns the FIRST record in load
order whose normalised question (confidence 1.0, method
`exact_question_match`) or question variation (confidence 0.98, method
`variation_exact_match`) equals the normalised query, short-circuiting
every other scoring strategy; a record whose question matches can be
shadowed by an earlier record's variation. -/
theorem exact_match_scan_first_hit (sys : IntegratedSearchSystem) (q : String)
    (pre : List DataItem) (item : DataItem) (post : List DataItem)
    (hq : sys.questions ≠ []) (hv : sys.vectorizer = true)
    (hdata : sys.data = pre ++ item :: post)
    (hpre : ∀ r ∈ pre, pyNormalize r.question ≠ pyNormalize q ∧
        ∀ v ∈ r.questionVariations, pyNormalize v ≠ pyNormalize q) :
    (pyNormalize item.question = pyNormalize q →
      searchJsonData sys q = Except.ok
        { answer := item.answer, confidence := 1, method := "exact_question_match",
          isExactMatch := true }) ∧
    (pyNormalize item.question ≠ pyNormalize q →
      item.questionVariations.any (fun v => pyNormalize v = pyNormalize q) = true →
      searchJsonData sys q = Except.ok
        { answer := item.answer, confidence := 0.98, method := "variation_exact_match",
          isExactMatch := true }) := by
  constructor
  · intro hmatch
    apply searchJsonData_of_exactScan sys q _ hq hv
    rw [hdata, exactScan_append _ _ _ hpre, exactScan, if_pos hmatch]
  · intro hnm hvar
    rw [show (0.98 : ℚ) = dq 98 from dq98_eq.symm]
    apply searchJsonData_of_exactScan sys q _ hq hv
    rw [hdata, exactScan_append _ _ _ hpre, exactScan, if_neg hnm, if_pos]
    simp only [List.any_eq_true, decide_eq_true_eq] at hvar ⊢
    exact hvar

set_option maxRecDepth 20000 in
/-- C4 witness: a one-record corpus whose question equals the query is
returned at confidence 1.0 with the exact-match method. -/
theorem exact_match_scan_first_hit_witness :
    searchJsonData exactDemo "what are the library hours" =
      Except.ok { answer := "Answer B", confidence := 1,
                  method := "exact_question_match", isExactMatch := true } := by
  exact (exact_match_scan_first_hit exactDemo "what are the library hours" [] exactDemoItem []
    (by decide) (by decide) (by decide)
    (fun r hr => absurd hr (List.not_mem_nil r))).1 (by decide)

set_option maxRecDepth 20000 in
/-- C5 counterexample: the claim says any fee mismatch (not the ×8
program total) downgrades confidence below the high-confidence
threshold; the spec's own scenario answer "BDT 75,000" for a CSE fee
question (ground truth 70,000) should therefore be downgraded from a
raw 0.9.  But `_validate_fee_answer` only returns `false` when the
answer text contains the word "semester", so this mismatched answer
passes validation and is returned verbatim at confidence 0.9 by the
high-confidence branch. -/
theorem fee_mismatch_not_downgraded_without_semester :
    isFeeQuestion "what is the cse fee" = true ∧
    firstBdtAmount (pyLower "The CSE tuition is BDT 75,000.") = some 75000 ∧
    (75000 ≠ 70000 ∧ 75000 ≠ 70000 * 8) ∧
    validateFeeAnswer "The CSE tuition is BDT 75,000." "what is the cse fee" = true ∧
    integratedSearch feeDemo "what is the cse fee" =
      { answer := "The CSE tuition is BDT 75,000.", confidence := dq 90,
        method := "exact_dataset_match" } ∧
    dq 90 = (0.9 : ℚ) := by
  refine ⟨by decide, by decide, by decide, by decide, by decide, dq90_eq⟩

/-- C5 amended: when a fee question names a program with a known
per-semester fee, the answer's first BDT amount is neither that fee nor
its ×8 program total, and the answer text mentions "semester", the
validator flags it and the caller downgrades the result to confidence
0.3 — below the 0.7 high-confidence threshold — keeping the answer text
unchanged (even when the raw combined score was 0.9). -/
theorem fee_mismatch_semester_downgrade (q ans program : String) (fee f : Nat)
    (hmem : (program, fee) ∈ correctFees)
    (hprog : strContains (pyLower q) program = true)
    (hf : firstBdtAmount (pyLower ans) = some f)
    (hne1 : f ≠ fee) (hne2 : f ≠ fee * 8)
    (hsem : strContains (pyLower ans) "semester" = true)
    (hfee : isFeeQuestion q = true) :
    validateFeeAnswer ans q = false ∧
    (∀ conf : ℚ, ∀ meth : String, ∀ ex : Bool,
      feeAdjust q { answer := ans, confidence := conf, method := meth, isExactMatch := ex } =
        { answer := ans, confidence := 0.3, method := meth, isExactMatch := ex }) ∧
    (0.3 : ℚ) < 0.7 := by
  have hansne : ans ≠ "" := by
    intro he
    rw [he] at hsem
    exact absurd hsem (by decide)
  have hvf : validateFeeAnswer ans q = false := by
    rw [validateFeeAnswer]
    simp only [Bool.not_eq_false']
    rw [List.any_eq_true]
    refine ⟨(program, fee), hmem, ?_⟩
    rw [hf]
    simp [hprog, hne1, hne2, hsem]
  refine ⟨hvf, ?_, by norm_num⟩
  intro conf meth ex
  rw [feeAdjust, if_pos, dq30_eq]
  refine ⟨hfee, hansne, ?_⟩
  simp [hvf]

/-- C5 witness: a mismatched per-semester CSE fee answer is flagged and
downgraded to confidence 0.3 by the caller, keeping the answer text. -/
theorem fee_mismatch_semester_downgrade_witness :
    validateFeeAnswer "The fee is BDT 75,000 per semester." "what is the cse tuition fee" =
      false ∧
    feeAdjust "what is the cse tuition fee"
        { answer := "The fee is BDT 75,000 per semester.", confidence := dq 90,
          method := "optimized_multi_strategy_search", isExactMatch := false } =
      { answer := "The fee is BDT 75,000 per semester.", confidence := 0.3,
        method := "optimized_multi_strategy_search", isExactMatch := false } := by
  have h := fee_mismatch_semester_downgrade "what is the cse tuition fee"
    "The fee is BDT 75,000 per semester." "cse" 70000 75000
    (by decide) (by decide) (by decide) (by decide) (by decide) (by decide) (by decide)
  exact ⟨h.1, h.2.1 (dq 90) "optimized_multi_strategy_search" false⟩

/-- C6: a generated answer whose token-overlap similarity with some
blocked answer strictly exceeds the configured threshold (default 0.7)
is rejected and regenerated exactly once with the stronger
anti-repetition prompt; the second attempt is returned unconditionally
— even if it would itself still be blocked — with no further retry. -/
theorem similar_generated_answer_regenerated_once (bot : EnhancedOllamaChatbotV2)
    (q ctx firstResponse retryResponse : String) (englishRetry : Option String)
    (heng : containsNonEnglish firstResponse = false)
    (hsim : isSimilarToDisliked bot firstResponse = true) :
    generateResponse bot q ctx firstResponse englishRetry retryResponse = retryResponse := by
  rw [generateResponse.eq_def]
  simp [heng, hsim]

/-- C6 witness: a response sharing 4 of 5 words (80% overlap) with a
blocked answer is similar and replaced by the single regeneration. -/
theorem similar_generated_answer_regenerated_once_witness :
    containsNonEnglish "a b c d f" = false ∧
    isSimilarToDisliked similarDemoBot "a b c d f" = true ∧
    qDiv ((4 : ℕ) : ℚ) ((5 : ℕ) : ℚ) = dq 80 ∧
    generateResponse similarDemoBot "q" "ctx" "a b c d f" none "a different reply" =
      "a different reply" := by
  refine ⟨by decide, by decide, by decide, ?_⟩
  exact similar_generated_answer_regenerated_once similarDemoBot "q" "ctx"
    "a b c d f" "a different reply" none (by decide) (by decide)

/-- C7: a query settled by the exact-question or exact-variation scan is
returned by `integrated_search` immediately at confidence 1.0 (or 0.98
for a variation), before the fee validator and the department
boost/penalty strategy run — here stated with the hypothesis that the
answer actually fails fee validation, so the contradicting answer is
still returned at full confidence. -/
theorem exact_match_bypasses_validation_and_entity_boost
    (sys : IntegratedSearchSystem) (q : String) (res : SearchResult)
    (hq : sys.questions ≠ []) (hv : sys.vectorizer = true)
    (hscan : exactScan (pyNormalize q) sys.data = some res)
    (_hval : validateFeeAnswer res.answer q = false) :
    integratedSearch sys q =
      { answer := res.answer, confidence := res.confidence, method := res.method } ∧
    (res.confidence = 1 ∨ res.confidence = 0.98) := by
  have hjs := searchJsonData_of_exactScan sys q res hq hv hscan
  have hx := exactScan_eq_some (pyNormalize q) sys.data res hscan
  constructor
  · rw [integratedSearch, hjs]
    simp [hx.1]
  · exact hx.2

set_option maxRecDepth 20000 in
/-- C7 witness: a record answering its own question with a fee that
contradicts the ground-truth table (99,000 instead of 70,000, explicitly
per semester) is returned verbatim at confidence 1.0. -/
theorem exact_match_bypasses_validation_and_entity_boost_witness :
    integratedSearch exactBadFeeDemo "what is the cse fee" =
      { answer := "The CSE fee is BDT 99,000 per semester.", confidence := 1,
        method := "exact_question_match" } ∧
    validateFeeAnswer "The CSE fee is BDT 99,000 per semester." "what is the cse fee" =
      false := by
  have h := exact_match_bypasses_validation_and_entity_boost exactBadFeeDemo
    "what is the cse fee"
    { answer := "The CSE fee is BDT 99,000 per semester.", confidence := 1,
      method := "exact_question_match", isExactMatch := true }
    (by decide) (by decide) (by decide) (by decide)
  exact ⟨h.1, by decide⟩

set_option maxRecDepth 20000 in
/-- C8 counterexample: one load pass over a folder whose single file
holds two records with the same normalised question keeps both — the
loader never compares question text, so the claimed invariant "no two
surviving corpus records have identical normalised question text from
the same load pass" fails. -/
theorem duplicate_questions_survive_single_load_pass :
    ((loadDatasetFiles emptyDemo dupFolderDemo).data.map
      (fun r => pyNormalize r.question)) = ["duplicate q", "duplicate q"] ∧
    ((loadDatasetFiles emptyDemo dupFolderDemo).data.map (fun r => r.answer)) =
      ["A1", "A2"] := by
  refine ⟨by decide, by decide⟩

/-- C8 amended: supersession in `load_dataset_files` is by whole file,
not by record question: when `CSE_improved.json` is present the file
`cse.json` is skipped entirely, regardless of any question text (loading
the folder equals loading it with every `cse.json` entry removed); and
every record of a kept `.json` file is appended unconditionally — no
per-question deduplication is performed, so records with identical
normalised questions can all survive a load pass. -/
theorem supersession_is_whole_file_no_question_dedup
    (sys : IntegratedSearchSystem) (folder : List (String × List DataItem)) :
    ((folder.map Prod.fst).contains "CSE_improved.json" = true →
      loadDatasetFiles sys folder =
        loadDatasetFiles sys (folder.filter (fun f => f.1 ≠ "cse.json"))) ∧
    (∀ fn : String, ∀ items : List DataItem, ∀ item : DataItem,
      (fn, items) ∈ folder → item ∈ items →
      pyEndsWith fn ".json" = true →
      skipOldFile (folder.map Prod.fst) fn = false →
      convertDatasetItem fn (priorityFiles.contains fn) item ∈
        (loadDatasetFiles sys folder).data) := by
  constructor
  · intro h
    simp only [loadDatasetFiles]
    have hfun : (fun (file : String × List DataItem) =>
        if pyEndsWith file.1 ".json" &&
            !skipOldFile ((folder.filter (fun f => f.1 ≠ "cse.json")).map Prod.fst) file.1 then
          file.2.map (convertDatasetItem file.1 (priorityFiles.contains file.1))
        else []) =
      (fun (file : String × List DataItem) =>
        if pyEndsWith file.1 ".json" && !skipOldFile (folder.map Prod.fst) file.1 then
          file.2.map (convertDatasetItem file.1 (priorityFiles.contains file.1))
        else []) := by
      funext file
      rw [skipOldFile_filter_ne]
    rw [hfun, flatten_skip_cse_aux (folder.map Prod.fst) h folder]
  · intro fn items item hmem hit hjson hskip
    simp only [loadDatasetFiles]
    apply List.mem_append_right
    apply List.mem_flatten.mpr
    refine ⟨items.map (convertDatasetItem fn (priorityFiles.contains fn)), ?_,
      List.mem_map_of_mem _ hit⟩
    have harm : (fun (file : String × List DataItem) =>
        if pyEndsWith file.1 ".json" && !skipOldFile (folder.map Prod.fst) file.1 then
          file.2.map (convertDatasetItem file.1 (priorityFiles.contains file.1))
        else []) (fn, items) =
        items.map (convertDatasetItem fn (priorityFiles.contains fn)) := by
      simp [hjson, hskip]
    rw [← harm]
    exact List.mem_map_of_mem _ hmem

set_option maxRecDepth 20000 in
/-- C8 witness: with the improved CSE file present, loading the folder
equals loading it without `cse.json`, and the improved file's record is
appended. -/
theorem supersession_is_whole_file_no_question_dedup_witness :
    loadDatasetFiles emptyDemo supersedeFolderDemo =
      loadDatasetFiles emptyDemo
        (supersedeFolderDemo.filter (fun f => f.1 ≠ "cse.json")) ∧
    convertDatasetItem "CSE_improved.json" (priorityFiles.contains "CSE_improved.json")
        { question := "Improved Q", answer := "AI" } ∈
      (loadDatasetFiles emptyDemo supersedeFolderDemo).data := by
  have h := supersession_is_whole_file_no_question_dedup emptyDemo supersedeFolderDemo
  exact ⟨h.1 (by decide),
    h.2 "CSE_improved.json" [{ question := "Improved Q", answer := "AI" }]
      { question := "Improved Q", answer := "AI" }
      (by decide) (by decide) (by decide) (by decide)⟩

/-- C9: with no searchable index — empty corpus (no questions) or an
unbuilt vectorizer — `train_models` leaves the state untouched (the
index stays absent) and every search returns an empty no-match result
with confidence 0 instead of raising; with the corpus empty (hence no
instruction pairs either) the offline router lands in its
lowest-confidence branch, the static refusal. -/
theorem missing_index_degrades_to_no_match (sys : IntegratedSearchSystem) (q : String)
    (hq : sys.questions = []) :
    searchJsonData sys q =
      Except.ok { answer := "", confidence := 0, method := "no_data", isExactMatch := false } ∧
    trainModels sys = sys ∧
    (sys.instructionResponses = [] → sys.offlineMode = true →
      integratedSearch sys q =
        { answer := offlineFallbackAnswer, confidence := 0,
          method := "enhanced_offline_fallback" }) ∧
    (∀ sys2 : IntegratedSearchSystem, ∀ q2 : String, sys2.vectorizer = false →
      sys2.questions ≠ [] →
      searchJsonData sys2 q2 =
        Except.ok { answer := "", confidence := 0, method := "vectorizer_not_trained",
                    isExactMatch := false }) := by
  refine ⟨?_, ?_, ?_, ?_⟩
  · rw [searchJsonData, if_pos (by simp [hq])]
  · rw [trainModels, if_pos (by simp [hq])]
  · intro hi ho
    rw [integratedSearch, searchJsonData, if_pos (by simp [hq])]
    rw [searchInstructionResponses, if_pos (by simp [hi])]
    simp only []
    rw [chooseBestResult]
    norm_num
    rw [feeAdjust, if_neg (by simp)]
    rw [routeByConfidence,
        if_neg (by rw [dq70_eq]; norm_num), if_neg (by rw [dq40_eq]; norm_num),
        if_neg (by rw [dq25_eq]; norm_num), if_neg (by simp [ho])]
  · intro sys2 q2 hv hq2
    rw [searchJsonData, if_neg (by simp [List.isEmpty_iff, hq2]), if_pos (by simp [hv])]

/-- C9 witness: the empty system returns the no-data result and the
offline refusal for a concrete query. -/
theorem missing_index_degrades_to_no_match_witness :
    searchJsonData emptyDemo "hello" =
      Except.ok { answer := "", confidence := 0, method := "no_data",
                  isExactMatch := false } ∧
    integratedSearch emptyDemo "hello" =
      { answer := offlineFallbackAnswer, confidence := 0,
        method := "enhanced_offline_fallback" } := by
  have h := missing_index_degrades_to_no_match emptyDemo "hello" rfl
  exact ⟨h.1, h.2.2.1 rfl rfl⟩

/-- C10: any number of identical LIKE submissions leaves routing
unchanged: the LIKE branch of `record_feedback` appends a feedback entry
but never touches the blocklist, the filtered question lists or the
vectorizer (no re-indexing), so every query's integrated search result
is identical before and after; likewise the V2 handler's LIKE branch
leaves the blocklist and hence `generate_response` unchanged. -/
theorem repeated_like_feedback_leaves_routing_unchanged
    (sys : IntegratedSearchSystem) (q uq ua : String) (n : Nat) :
    integratedSearch (repeatLike sys uq ua n) q = integratedSearch sys q ∧
    (repeatLike sys uq ua n).dislikedAnswers = sys.dislikedAnswers ∧
    (repeatLike sys uq ua n).questions = sys.questions ∧
    (repeatLike sys uq ua n).vectorizer = sys.vectorizer ∧
    ∀ bot : EnhancedOllamaChatbotV2, ∀ q2 ctx firstResponse retryResponse : String,
      ∀ englishRetry : Option String, ∀ m : Nat,
      (repeatLikeV2 bot uq ua m).dislikedAnswers = bot.dislikedAnswers ∧
      generateResponse (repeatLikeV2 bot uq ua m) q2 ctx firstResponse englishRetry
          retryResponse =
        generateResponse bot q2 ctx firstResponse englishRetry retryResponse := by
  have hv2 : ∀ bot : EnhancedOllamaChatbotV2, ∀ m : Nat,
      repeatLikeV2 bot uq ua m =
        { bot with feedbackData := bot.feedbackData ++
            List.replicate m { question := uq, answer := ua, feedback := "like" } } := by
    intro bot m
    induction m with
    | zero => simp [repeatLikeV2]
    | succ k ih =>
      rw [repeatLikeV2, ih, handleFeedback_like_eq]
      simp [List.replicate_succ']
  have hgen : ∀ bot : EnhancedOllamaChatbotV2, ∀ fd : List FeedbackItem,
      ∀ q2 ctx firstResponse retryResponse : String, ∀ englishRetry : Option String,
      generateResponse { bot with feedbackData := fd } q2 ctx firstResponse englishRetry
          retryResponse =
        generateResponse bot q2 ctx firstResponse englishRetry retryResponse := by
    intro bot fd q2 ctx firstResponse retryResponse englishRetry
    cases bot
    rfl
  induction n with
  | zero =>
    refine ⟨rfl, rfl, rfl, rfl, ?_⟩
    intro bot q2 ctx firstResponse retryResponse englishRetry m
    rw [hv2]
    exact ⟨rfl, hgen bot _ q2 ctx firstResponse retryResponse englishRetry⟩
  | succ k ih =>
    rw [repeatLike, recordFeedback_like_eq]
    refine ⟨?_, ih.2.1, ih.2.2.1, ih.2.2.2.1, ih.2.2.2.2⟩
    rw [integratedSearch_ignores_feedback]
    exact ih.1
